import Mathlib

/-!
Shallow embedding of `src/src/e2ee/DeviceTracker.ts` (matrix-bot-sdk).

The source is a single class, `DeviceTracker`, with two public methods:

* `flagUsersOutdated(userIds, resync = true)` — awaits
  `cryptoStore.flagUsersOutdated(userIds)`, then, when `resync` is true,
  calls `updateUsersDeviceLists(userIds)` without awaiting it.

* `updateUsersDeviceLists(userIds)` — waits on every promise found in the
  `deviceListUpdates` registry under the requested user ids, then builds a
  `new Promise(async resolve => ...)` whose executor fetches
  `client.getUserDevices(userIds)` and, per user in the response, filters
  each claimed device through four checks (identity consistency, key
  completeness, Ed25519 pinning against the stored device list, and a
  self-signature check via `crypto.verifySignature`), committing the
  surviving list with `cryptoStore.setUserDevices(userId, validated)`;
  afterwards the promise is written into the registry under every
  requested id and awaited.

JavaScript semantics that the embedding must capture faithfully:

* `Record<string, T>` lookups return the value or `undefined`; we model a
  record as an association list `List (String × T)` with first-match
  lookup returning `Option T`, and JS truthiness of a string-or-undefined
  value (`!x`) as `truthy : Option String → Bool` (undefined and the
  empty string are falsy).

* A promise built with `new Promise(async resolve => body)` runs `body`
  synchronously up to its first `await`.  If `body` later throws, the
  exception rejects the async arrow function's own (discarded) promise,
  not the constructed one, and `resolve` is never called: the constructed
  promise never settles.  The executor here never calls a reject
  callback, so the handle can only resolve or stay pending forever.

* The executor's first statement is the `getUserDevices` call, so the
  batch fetch is issued synchronously inside `new Promise(...)`, before
  control returns to `updateUsersDeviceLists` and before
  `userIds.forEach(u => this.deviceListUpdates[u] = promise)` runs.  No
  suspension point separates the fetch issuance from the registration:
  both happen in one synchronous segment after the deduplication wait.
-/

/-- Model of the `UserDevice` record from `models/Crypto` as used by
`DeviceTracker`: self-reported ids, a `keys` record keyed by
`"algorithm:deviceId"` strings, and a `signatures` record keyed first by
signer user id, then by `"algorithm:deviceId"`.  The source accesses
`signatures` through optional chaining (`device.signatures?.[...]`); an
absent record and an empty one are indistinguishable to those lookups, so
a plain (possibly empty) list suffices. -/
structure UserDevice where
  user_id : String
  device_id : String
  keys : List (String × String)
  signatures : List (String × List (String × String))
  deriving Repr, DecidableEq

/-- Modelled from the spec: the `DeviceKeyAlgorithm` enum of
`models/Crypto.ts` is not under `src/`; the spec's "Ed25519 signing key
... under the expected namespaced key slots" fixes the member (whose
source name carries the `Ed25119` typo) to the algorithm string
`"ed25519"`. -/
def DeviceKeyAlgorithm.Ed25119 : String := "ed25519"

/-- Modelled from the spec: the Curve25519 member of the
`DeviceKeyAlgorithm` enum of `models/Crypto.ts` (not under `src/`),
fixed by the spec to the algorithm string `"curve25519"`. -/
def DeviceKeyAlgorithm.Curve25519 : String := "curve25519"

/-- JS template literal `` `${alg}:${deviceId}` `` used for every key and
signature slot lookup in `updateUsersDeviceLists`. -/
def keySlot (alg deviceId : String) : String := alg ++ ":" ++ deviceId

/-- JS record lookup `m[k]`: the value when the key is present, otherwise
`none` (undefined).  JS object keys are unique; first match models it. -/
def jsLookup (m : List (String × α)) (k : String) : Option α :=
  (m.find? (fun p => p.1 == k)).map Prod.snd

/-- JS optional-chained two-level lookup `m?.[k1]?.[k2]`. -/
def jsLookup2 (m : List (String × List (String × String))) (k1 k2 : String) :
    Option String :=
  (jsLookup m k1).bind (fun inner => jsLookup inner k2)

/-- JS truthiness of a string-or-undefined value: `undefined` and `""`
are falsy, every other string is truthy. -/
def truthy : Option String → Bool
  | none => false
  | some s => s != ""

/-- Rejection reasons, one per `LogService.warn(...); continue` branch of
the device loop in `updateUsersDeviceLists` (lines 50–53, 58–61, 67–72,
76–79, 82–85 of `DeviceTracker.ts`).  Each corresponds to the distinct
warning the source logs before excluding the device. -/
inductive RejectReason
  | identityMismatch
  | missingKey
  | keyChanged
  | missingSignature
  | invalidSignature
  deriving Repr, DecidableEq

/-- The body of the per-device loop of `updateUsersDeviceLists`
(lines 48–87): given the signature collaborator `verify`
(`client.crypto.verifySignature`), the stored device list
`currentDevices` (`cryptoStore.getUserDevices(userId)` — unchanged for
this user throughout the pass, since the user's commit happens only after
its whole claim list is evaluated), the outer indexing keys `userId` and
`deviceId`, and the claimed `device`, it returns `Except.ok ()` when the
device is pushed onto `validated`, and the `RejectReason` of the
`continue` branch taken otherwise.  The checks appear in source order:
identity consistency, key completeness (JS truthiness, so an empty-string
key is also rejected), Ed25519 pinning against the stored device (strict
`!==` on string-or-undefined values), signature presence, and the
signature verification call. -/
def classifyDevice (verify : UserDevice → String → String → Bool)
    (currentDevices : List UserDevice) (userId deviceId : String)
    (device : UserDevice) : Except RejectReason Unit :=
  if device.user_id != userId || device.device_id != deviceId then
    Except.error RejectReason.identityMismatch
  else
    let ed25519 := jsLookup device.keys (keySlot DeviceKeyAlgorithm.Ed25119 deviceId)
    let curve25519 := jsLookup device.keys (keySlot DeviceKeyAlgorithm.Curve25519 deviceId)
    if !truthy ed25519 || !truthy curve25519 then
      Except.error RejectReason.missingKey
    else
      let existingDevice := currentDevices.find? (fun d => d.device_id == deviceId)
      let pinOk :=
        match existingDevice with
        | some d => jsLookup d.keys (keySlot DeviceKeyAlgorithm.Ed25119 deviceId) == ed25519
        | none => true
      if !pinOk then
        Except.error RejectReason.keyChanged
      else
        let signature := jsLookup2 device.signatures userId
          (keySlot DeviceKeyAlgorithm.Ed25119 deviceId)
        if !truthy signature then
          Except.error RejectReason.missingSignature
        else if verify device (ed25519.getD "") (signature.getD "") then
          Except.ok ()
        else
          Except.error RejectReason.invalidSignature

/-- Whether the device loop pushes the claim onto `validated`
(`validated.push(device)` at line 87): exactly when no `continue` branch
fires. -/
def validateDevice (verify : UserDevice → String → String → Bool)
    (currentDevices : List UserDevice) (userId deviceId : String)
    (device : UserDevice) : Bool :=
  match classifyDevice verify currentDevices userId deviceId device with
  | Except.ok _ => true
  | Except.error _ => false

/-- The `validated` list a user's claim list produces (the inner loop of
lines 47–88): the claims surviving `validateDevice`, in response order,
projected to the device record.  `claims` models
`Object.entries(resp.device_keys[userId])`. -/
def validatedFor (verify : UserDevice → String → String → Bool)
    (currentDevices : List UserDevice) (userId : String)
    (claims : List (String × UserDevice)) : List UserDevice :=
  (claims.filter (fun c => validateDevice verify currentDevices userId c.1 c.2)).map Prod.snd

/-- The commit loop of `updateUsersDeviceLists` (lines 46–89): for each
user key of the fetched `resp.device_keys` (modelled as
`Object.entries`, a list of `(userId, claim list)` pairs with the unique
keys of a JS record), evaluate the whole claim list against the store as
read during that user's iteration, then replace that user's stored set
with exactly the validated list (`cryptoStore.setUserDevices`, line 89).
Users are processed sequentially; a user's own reads all precede its own
write. -/
def runPass (verify : UserDevice → String → String → Bool)
    (resp : List (String × List (String × UserDevice)))
    (store : String → List UserDevice) : String → List UserDevice :=
  resp.foldl
    (fun st entry =>
      fun u => if u == entry.1 then validatedFor verify (st entry.1) entry.1 entry.2 else st u)
    store

/-- Settlement state of a JS promise: resolved, rejected with an error,
or pending forever (never settles). -/
inductive PassOutcome
  | resolved
  | rejected (e : String)
  | pending
  deriving Repr, DecidableEq

/-- Whether a promise outcome is a rejection. -/
def PassOutcome.isRejected : PassOutcome → Bool
  | PassOutcome.rejected _ => true
  | _ => false

/-- Whether a promise outcome is pending forever. -/
def PassOutcome.isPending : PassOutcome → Bool
  | PassOutcome.pending => true
  | _ => false

/-- Settlement of `Promise.all(ps)`: it rejects when some input rejects
(with that input's error), stays pending forever when no input rejects
but some never settles, and resolves otherwise (in particular on the
empty list — the source skips the `await` entirely when
`existingPromises` is empty, which is equivalent). -/
def promiseAllOutcome (ps : List PassOutcome) : PassOutcome :=
  match ps.find? PassOutcome.isRejected with
  | some o => o
  | none =>
    if ps.any PassOutcome.isPending then PassOutcome.pending else PassOutcome.resolved

/-- Observable events of one `updateUsersDeviceLists` call, in program
order: the `await Promise.all(existingPromises)` rendezvous, the
issuance of the `client.getUserDevices` batch fetch (the first statement
of the promise executor, run synchronously by `new Promise`), the
registry write `userIds.forEach(u => this.deviceListUpdates[u] =
promise)`, each `cryptoStore.setUserDevices(userId, ...)` commit, and the
executor's final `resolve()`. -/
inductive Ev
  | waitPrior
  | fetchIssue
  | register
  | commit (userId : String)
  | resolveHandle
  deriving Repr, DecidableEq

/-- Result of one `updateUsersDeviceLists` call, as observed at its
suspension points: `outcome` is the settlement of the promise the method
itself returns (it ends with `await promise`); `handle` is the
settlement of the shared inner promise, `none` when the call never got
far enough to create it; `regAfter` is the `deviceListUpdates` registry
after the call (each entry recording the settlement state of the promise
stored there); `store` is the per-user trusted-device store once
everything the call ever runs has run; `trace` lists the events in the
order the call reaches them (events after a never-settling await are
absent: they are never reached). -/
structure PassResult where
  outcome : PassOutcome
  handle : Option PassOutcome
  regAfter : String → Option PassOutcome
  store : String → List UserDevice
  trace : List Ev

/-- One `updateUsersDeviceLists(userIds)` call (lines 34–93), against a
registry `reg` (the settlement states of the promises currently in
`this.deviceListUpdates`), a batch-fetch result `fetchResult`
(`client.getUserDevices` either returns `resp.device_keys`, modelled as
`Object.entries`, or throws), and the current store.

Branches:

* The call first awaits `Promise.all` of the registry entries found
  under `userIds` (`.map(...).filter(p => !!p)` is `filterMap`).  If that
  await rejects, the method rejects there; if some prior handle never
  settles, the method is stuck there forever.  In both cases nothing
  else runs: no fetch, no registration, no commit.  (With handles
  produced by this component a rejection is in fact impossible — see the
  fetch-failure branch below — but `Promise.all` semantics are modelled
  in full.)

* Otherwise `new Promise(async resolve => ...)` runs its executor
  synchronously up to the first await: the fetch is issued, then the
  executor suspends, and the promise is written into the registry under
  every requested id — all in one synchronous segment.  If the fetch
  throws, the exception is swallowed by the discarded async-executor
  promise: `resolve` is never called, the shared handle stays pending
  forever, no store write happens, and the method's own `await promise`
  never completes.  If the fetch succeeds, the commit loop (`runPass`)
  runs, `resolve()` settles the handle, and the method resolves. -/
def updateUsersDeviceLists (verify : UserDevice → String → String → Bool)
    (reg : String → Option PassOutcome) (userIds : List String)
    (fetchResult : Except String (List (String × List (String × UserDevice))))
    (store : String → List UserDevice) : PassResult :=
  let existingPromises := userIds.filterMap reg
  match promiseAllOutcome existingPromises with
  | PassOutcome.rejected e =>
    { outcome := PassOutcome.rejected e, handle := none, regAfter := reg,
      store := store, trace := [Ev.waitPrior] }
  | PassOutcome.pending =>
    { outcome := PassOutcome.pending, handle := none, regAfter := reg,
      store := store, trace := [Ev.waitPrior] }
  | PassOutcome.resolved =>
    match fetchResult with
    | Except.error _ =>
      { outcome := PassOutcome.pending, handle := some PassOutcome.pending,
        regAfter := fun u => if userIds.contains u then some PassOutcome.pending else reg u,
        store := store,
        trace := [Ev.waitPrior, Ev.fetchIssue, Ev.register] }
    | Except.ok resp =>
      { outcome := PassOutcome.resolved, handle := some PassOutcome.resolved,
        regAfter := fun u => if userIds.contains u then some PassOutcome.resolved else reg u,
        store := runPass verify resp store,
        trace := [Ev.waitPrior, Ev.fetchIssue, Ev.register]
          ++ resp.map (fun entry => Ev.commit entry.1) ++ [Ev.resolveHandle] }

/-- Observable events of one `flagUsersOutdated` call, in program order:
the awaited `cryptoStore.flagUsersOutdated(userIds)` write, the
un-awaited `updateUsersDeviceLists(userIds)` call, and the method's own
resolution. -/
inductive FlagEv
  | markOutdated
  | startUpdate
  | ret
  deriving Repr, DecidableEq

/-- Result of one `flagUsersOutdated` call: its own settlement, the ids
whose outdated flag the awaited store write recorded, whether a
synchronization pass was started, that pass's (eventual, independent)
result when one was started, and the events in the order the call
reaches them. -/
structure FlagResult where
  outcome : PassOutcome
  flagged : List String
  started : Bool
  startedPass : Option PassResult
  trace : List FlagEv

/-- One `flagUsersOutdated(userIds, resync)` call (lines 20–27): it
awaits the store's outdated-flag write (a failure there rejects the
method before anything else happens), then, when `resync` is true,
starts `updateUsersDeviceLists(userIds)` without awaiting it (the
`// noinspection ES6MissingAwait` call) and resolves immediately; the
started pass's outcome never reaches this method's caller, because its
promise is discarded. -/
def flagUsersOutdated (verify : UserDevice → String → String → Bool)
    (reg : String → Option PassOutcome) (userIds : List String) (resync : Bool)
    (flagWrite : Except String Unit)
    (fetchResult : Except String (List (String × List (String × UserDevice))))
    (store : String → List UserDevice) : FlagResult :=
  match flagWrite with
  | Except.error e =>
    { outcome := PassOutcome.rejected e, flagged := [], started := false,
      startedPass := none, trace := [] }
  | Except.ok _ =>
    if resync then
      { outcome := PassOutcome.resolved, flagged := userIds, started := true,
        startedPass := some (updateUsersDeviceLists verify reg userIds fetchResult store),
        trace := [FlagEv.markOutdated, FlagEv.startUpdate, FlagEv.ret] }
    else
      { outcome := PassOutcome.resolved, flagged := userIds, started := false,
        startedPass := none, trace := [FlagEv.markOutdated, FlagEv.ret] }

/-- Concrete device claim: `DEVICE1` of `@alice:example.org` presenting
Ed25519 key `keyK1` with a self-signature slot. -/
def devK1 : UserDevice :=
  { user_id := "@alice:example.org", device_id := "DEVICE1",
    keys := [("ed25519:DEVICE1", "keyK1"), ("curve25519:DEVICE1", "curveC1")],
    signatures := [("@alice:example.org", [("ed25519:DEVICE1", "sig1")])] }

/-- Concrete device claim: the same `(user, device)` identity as `devK1`
but presenting a different Ed25519 key `keyK2`, self-signed. -/
def devK2 : UserDevice :=
  { user_id := "@alice:example.org", device_id := "DEVICE1",
    keys := [("ed25519:DEVICE1", "keyK2"), ("curve25519:DEVICE1", "curveC1")],
    signatures := [("@alice:example.org", [("ed25519:DEVICE1", "sig2")])] }

/-- Concrete device claim: a second device `DEVICE2` of the same user,
with its own keys and self-signature slot. -/
def devD2 : UserDevice :=
  { user_id := "@alice:example.org", device_id := "DEVICE2",
    keys := [("ed25519:DEVICE2", "keyD2"), ("curve25519:DEVICE2", "curveD2")],
    signatures := [("@alice:example.org", [("ed25519:DEVICE2", "sigD2")])] }

/-- Concrete device claim: correct identity but only a Curve25519 key
slot, lacking the Ed25519 slot. -/
def curveOnlyDev : UserDevice :=
  { user_id := "@alice:example.org", device_id := "DEVICE1",
    keys := [("curve25519:DEVICE1", "curveC1")],
    signatures := [("@alice:example.org", [("ed25519:DEVICE1", "sigX")])] }

/-- Signature collaborator that accepts every signature: the extreme
case of "otherwise-valid signature". -/
def vTrue : UserDevice → String → String → Bool := fun _ _ _ => true

/-- Initially empty trusted-device store. -/
def store0 : String → List UserDevice := fun _ => []

/-- Initially empty pending-operation registry. -/
def regEmpty : String → Option PassOutcome := fun _ => none

/-- Store after a first pass that commits `devK1` (key `keyK1`) for
`(@alice:example.org, DEVICE1)` from the empty store. -/
def pass1Store : String → List UserDevice :=
  runPass vTrue [("@alice:example.org", [("DEVICE1", devK1)])] store0

/-- Store after a second pass in which the directory presents the same
`(user, device)` with the changed Ed25519 key `keyK2`. -/
def pass2Store : String → List UserDevice :=
  runPass vTrue [("@alice:example.org", [("DEVICE1", devK2)])] pass1Store

/-- Store after a third pass presenting `keyK2` again, now against the
store `pass2Store` left by the second pass. -/
def pass3Store : String → List UserDevice :=
  runPass vTrue [("@alice:example.org", [("DEVICE1", devK2)])] pass2Store

/-- Unfolding of the commit loop on a cons cell. -/
theorem runPass_cons (verify : UserDevice → String → String → Bool)
    (entry : String × List (String × UserDevice))
    (rest : List (String × List (String × UserDevice)))
    (store : String → List UserDevice) :
    runPass verify (entry :: rest) store
      = runPass verify rest
          (fun u => if u == entry.1 then validatedFor verify (store entry.1) entry.1 entry.2
                    else store u) := by
  simp [runPass, List.foldl_cons]

/-- Frame lemma for the commit loop: a user whose id is not a key of the
response keeps its stored device list unchanged. -/
theorem runPass_frame (verify : UserDevice → String → String → Bool)
    (resp : List (String × List (String × UserDevice)))
    (store : String → List UserDevice) (u : String)
    (h : u ∉ resp.map Prod.fst) : runPass verify resp store u = store u := by
  induction resp generalizing store with
  | nil => rfl
  | cons entry rest ih =>
    rw [runPass_cons]
    have hne : u ≠ entry.1 := by
      intro hc
      exact h (by simp [hc])
    have hrest : u ∉ rest.map Prod.fst := by
      intro hc
      exact h (by simp [hc])
    rw [ih _ hrest]
    simp [hne]

/-- Replacement lemma for the commit loop: when response keys are unique
(as JS record keys are), a user that is a key of the response ends with
exactly the validated list computed from its pre-pass stored list. -/
theorem runPass_mem (verify : UserDevice → String → String → Bool)
    (resp : List (String × List (String × UserDevice)))
    (store : String → List UserDevice) (u : String)
    (claims : List (String × UserDevice))
    (hnd : (resp.map Prod.fst).Nodup) (hm : (u, claims) ∈ resp) :
    runPass verify resp store u = validatedFor verify (store u) u claims := by
  induction resp generalizing store with
  | nil => cases hm
  | cons entry rest ih =>
    rw [runPass_cons]
    rw [List.map_cons] at hnd
    have hcons := List.nodup_cons.mp hnd
    rcases List.mem_cons.mp hm with hhead | htail
    · have hkey : entry.1 = u := by rw [← hhead]
      have hclaims : entry.2 = claims := by rw [← hhead]
      have hrest : u ∉ rest.map Prod.fst := by
        have h1 := hcons.1
        rw [hkey] at h1
        exact h1
      rw [runPass_frame verify rest _ u hrest]
      simp [hkey, hclaims]
    · have hukey : u ∈ rest.map Prod.fst :=
        List.mem_map.mpr ⟨(u, claims), htail, rfl⟩
      have hne : u ≠ entry.1 := by
        intro hc
        have h1 := hcons.1
        rw [← hc] at h1
        exact h1 hukey
      rw [ih _ hcons.2 htail]
      simp [hne]

/-- C1 counterexample.  The claim says that once `(userId, deviceId)` has
been committed with Ed25519 key `K`, no later synchronize pass commits a
different key for that pair.  Concretely: pass 1 commits `DEVICE1` of
`@alice:example.org` with key `keyK1`; pass 2 presents the same device
with key `keyK2` and a signature the verifier accepts — the claim is
rejected (pinning fires), but the full-replacement commit therefore
erases the device from the store; pass 3, a later synchronize pass,
presents `keyK2` again and now commits it (trust-on-first-use, since
nothing is stored), even though `keyK2 ≠ keyK1`.  So a later pass does
commit a different Ed25519 key for a pair once committed with `keyK1`. -/
theorem c1_counterexample :
    pass1Store "@alice:example.org" = [devK1]
    ∧ jsLookup devK1.keys "ed25519:DEVICE1" = some "keyK1"
    ∧ pass2Store "@alice:example.org" = []
    ∧ pass3Store "@alice:example.org" = [devK2]
    ∧ jsLookup devK2.keys "ed25519:DEVICE1" = some "keyK2" := by
  decide

/-- C1 (amended): key pinning relative to the current store.  Whenever
the stored device list read for a user contains a device with the
claim's `deviceId` whose stored Ed25519 slot differs from the claim's,
the claim fails validation — for every signature collaborator, i.e. even
when its self-signature would be accepted.  The "no later pass ever"
form fails only because a rejecting pass also erases the pinned device
(see the counterexample), after which trust-on-first-use applies anew. -/
theorem c1_pinning_rejects_changed_key
    (verify : UserDevice → String → String → Bool)
    (curr : List UserDevice) (u d : String) (device ex : UserDevice)
    (hfind : curr.find? (fun x => x.device_id == d) = some ex)
    (hne : jsLookup ex.keys (keySlot DeviceKeyAlgorithm.Ed25119 d)
         ≠ jsLookup device.keys (keySlot DeviceKeyAlgorithm.Ed25119 d)) :
    validateDevice verify curr u d device = false := by
  unfold validateDevice classifyDevice
  by_cases hid : (device.user_id != u || device.device_id != d) = true
  · simp [hid]
  · by_cases hkey :
      (!truthy (jsLookup device.keys (keySlot DeviceKeyAlgorithm.Ed25119 d))
        || !truthy (jsLookup device.keys (keySlot DeviceKeyAlgorithm.Curve25519 d))) = true
    · simp [hid, hkey]
    · have hpin : (jsLookup ex.keys (keySlot DeviceKeyAlgorithm.Ed25119 d)
          == jsLookup device.keys (keySlot DeviceKeyAlgorithm.Ed25119 d)) = false :=
        beq_eq_false_iff_ne.mpr hne
      simp [hid, hkey, hfind, hpin]

/-- C1 witness: the amended pinning theorem applied at the concrete
store `[devK1]` and the concrete changed-key claim `devK2`, with the
always-accepting verifier. -/
theorem c1_witness :
    ([devK1].find? (fun x => x.device_id == "DEVICE1") = some devK1)
    ∧ jsLookup devK1.keys (keySlot DeviceKeyAlgorithm.Ed25119 "DEVICE1")
        ≠ jsLookup devK2.keys (keySlot DeviceKeyAlgorithm.Ed25119 "DEVICE1")
    ∧ validateDevice vTrue [devK1] "@alice:example.org" "DEVICE1" devK2 = false :=
  ⟨by decide, by decide,
    c1_pinning_rejects_changed_key vTrue [devK1] "@alice:example.org" "DEVICE1" devK2 devK1
      (by decide) (by decide)⟩

/-- C6: a claim whose self-reported `user_id` or `device_id` differs
from the outer keys it arrived under is classified as the
identity-mismatch rejection (the "server appears to be lying" warning of
line 51) and excluded from the validated set, for every signature
collaborator and whatever keys it carries. -/
theorem c6_identity_mismatch_rejected
    (verify : UserDevice → String → String → Bool)
    (curr : List UserDevice) (u d : String) (device : UserDevice)
    (h : device.user_id ≠ u ∨ device.device_id ≠ d) :
    classifyDevice verify curr u d device = Except.error RejectReason.identityMismatch
    ∧ validateDevice verify curr u d device = false := by
  have hcond : (device.user_id != u || device.device_id != d) = true := by
    rcases h with h | h <;> simp [h]
  constructor
  · unfold classifyDevice
    simp [hcond]
  · unfold validateDevice classifyDevice
    simp [hcond]

/-- C6 witness: the identity-mismatch theorem applied to `devD2`
arriving under the outer device key `DEVICE1`. -/
theorem c6_witness :
    (devD2.user_id ≠ "@alice:example.org" ∨ devD2.device_id ≠ "DEVICE1")
    ∧ classifyDevice vTrue [] "@alice:example.org" "DEVICE1" devD2
        = Except.error RejectReason.identityMismatch
    ∧ validateDevice vTrue [] "@alice:example.org" "DEVICE1" devD2 = false := by
  refine ⟨by decide, ?_⟩
  have h := c6_identity_mismatch_rejected vTrue [] "@alice:example.org" "DEVICE1" devD2
    (by decide)
  exact ⟨h.1, h.2⟩

/-- C7: a claim lacking the Ed25519 key slot or the Curve25519 key slot
under the expected `"algorithm:deviceId"` names is excluded from the
validated set (and hence never committed), for every signature
collaborator and every store state. -/
theorem c7_missing_key_rejected
    (verify : UserDevice → String → String → Bool)
    (curr : List UserDevice) (u d : String) (device : UserDevice)
    (h : jsLookup device.keys (keySlot DeviceKeyAlgorithm.Ed25119 d) = none
       ∨ jsLookup device.keys (keySlot DeviceKeyAlgorithm.Curve25519 d) = none) :
    validateDevice verify curr u d device = false := by
  unfold validateDevice classifyDevice
  by_cases hid : (device.user_id != u || device.device_id != d) = true
  · simp [hid]
  · have hkey :
      (!truthy (jsLookup device.keys (keySlot DeviceKeyAlgorithm.Ed25119 d))
        || !truthy (jsLookup device.keys (keySlot DeviceKeyAlgorithm.Curve25519 d))) = true := by
      rcases h with h | h <;> simp [h, truthy]
    simp [hid, hkey]

/-- C7 witness: the key-completeness theorem applied to a claim carrying
only a Curve25519 slot. -/
theorem c7_witness :
    (jsLookup curveOnlyDev.keys (keySlot DeviceKeyAlgorithm.Ed25119 "DEVICE1") = none
      ∨ jsLookup curveOnlyDev.keys (keySlot DeviceKeyAlgorithm.Curve25519 "DEVICE1") = none)
    ∧ validateDevice vTrue [] "@alice:example.org" "DEVICE1" curveOnlyDev = false :=
  ⟨by decide,
    c7_missing_key_rejected vTrue [] "@alice:example.org" "DEVICE1" curveOnlyDev (by decide)⟩

/-- C8: trust-on-first-use.  When the stored list has no device with the
claim's id, a claim with matching identity, both key slots present and
non-empty, a present non-empty self-signature slot, and a signature the
collaborator accepts is validated — for any Ed25519 key string `ek`
whatsoever — and belongs to the validated (hence committed) set of any
claim list containing it. -/
theorem c8_trust_on_first_use
    (verify : UserDevice → String → String → Bool)
    (curr : List UserDevice) (u d : String) (device : UserDevice)
    (ek ck sg : String)
    (hid1 : device.user_id = u) (hid2 : device.device_id = d)
    (hed : jsLookup device.keys (keySlot DeviceKeyAlgorithm.Ed25119 d) = some ek)
    (hek : ek ≠ "")
    (hcu : jsLookup device.keys (keySlot DeviceKeyAlgorithm.Curve25519 d) = some ck)
    (hck : ck ≠ "")
    (hnew : curr.find? (fun x => x.device_id == d) = none)
    (hsig : jsLookup2 device.signatures u (keySlot DeviceKeyAlgorithm.Ed25119 d) = some sg)
    (hsg : sg ≠ "")
    (hver : verify device ek sg = true) :
    validateDevice verify curr u d device = true
    ∧ ∀ claims : List (String × UserDevice),
        (d, device) ∈ claims → device ∈ validatedFor verify curr u claims := by
  have hcls : classifyDevice verify curr u d device = Except.ok () := by
    unfold classifyDevice
    simp [hid1, hid2, hed, hcu, hnew, hsig, truthy, hek, hck, hsg, hver]
  have hval : validateDevice verify curr u d device = true := by
    unfold validateDevice
    rw [hcls]
  refine ⟨hval, ?_⟩
  intro claims hmem
  unfold validatedFor
  exact List.mem_map.mpr ⟨(d, device), List.mem_filter.mpr ⟨hmem, hval⟩, rfl⟩

/-- C3: commit is a full replacement.  For every user present in the
fetch response (whose keys are unique, as JS record keys are), the
stored device list after the commit loop equals exactly the list of
claims that passed validation in this pass, computed against the user's
pre-pass stored list; anything previously stored for that user and not
in the validated list is gone. -/
theorem c3_commit_full_replacement
    (verify : UserDevice → String → String → Bool)
    (resp : List (String × List (String × UserDevice)))
    (store : String → List UserDevice) (u : String)
    (claims : List (String × UserDevice))
    (hnd : (resp.map Prod.fst).Nodup) (hm : (u, claims) ∈ resp) :
    runPass verify resp store u = validatedFor verify (store u) u claims :=
  runPass_mem verify resp store u claims hnd hm

/-- C3 witness: starting from a store trusting `devK1` (`DEVICE1`), a
pass whose response lists only the valid `DEVICE2` leaves exactly
`[devD2]` — not `[devK1, devD2]`. -/
theorem c3_witness :
    (([("@alice:example.org", [("DEVICE2", devD2)])].map Prod.fst).Nodup)
    ∧ ("@alice:example.org", [("DEVICE2", devD2)])
        ∈ [("@alice:example.org", [("DEVICE2", devD2)])]
    ∧ runPass vTrue [("@alice:example.org", [("DEVICE2", devD2)])] pass1Store "@alice:example.org"
        = validatedFor vTrue (pass1Store "@alice:example.org") "@alice:example.org"
            [("DEVICE2", devD2)]
    ∧ validatedFor vTrue (pass1Store "@alice:example.org") "@alice:example.org"
        [("DEVICE2", devD2)] = [devD2]
    ∧ pass1Store "@alice:example.org" = [devK1] :=
  ⟨by decide, by decide,
    c3_commit_full_replacement vTrue [("@alice:example.org", [("DEVICE2", devD2)])]
      pass1Store "@alice:example.org" [("DEVICE2", devD2)] (by decide) (by decide),
    by decide, by decide⟩

/-- C10: frame property.  A user absent from the keys of the directory
response keeps its stored device list unchanged through the whole call,
whatever the registry state and whether or not the user was requested. -/
theorem c10_absent_user_unchanged
    (verify : UserDevice → String → String → Bool)
    (reg : String → Option PassOutcome) (userIds : List String)
    (resp : List (String × List (String × UserDevice)))
    (store : String → List UserDevice) (u : String)
    (h : u ∉ resp.map Prod.fst) :
    (updateUsersDeviceLists verify reg userIds (Except.ok resp) store).store u = store u := by
  cases hp : promiseAllOutcome (userIds.filterMap reg) with
  | rejected e => simp [updateUsersDeviceLists, hp]
  | pending => simp [updateUsersDeviceLists, hp]
  | resolved =>
    simp only [updateUsersDeviceLists, hp]
    exact runPass_frame verify resp store u h

/-- C10 witness: `@bob:example.org` is requested but absent from the
response; its stored list (empty under `pass1Store`) is untouched while
`@alice:example.org` is rewritten. -/
theorem c10_witness :
    ("@bob:example.org" ∉ [("@alice:example.org", [("DEVICE1", devK1)])].map Prod.fst)
    ∧ (updateUsersDeviceLists vTrue regEmpty ["@alice:example.org", "@bob:example.org"]
        (Except.ok [("@alice:example.org", [("DEVICE1", devK1)])]) pass1Store).store
          "@bob:example.org"
      = pass1Store "@bob:example.org" :=
  ⟨by decide,
    c10_absent_user_unchanged vTrue regEmpty ["@alice:example.org", "@bob:example.org"]
      [("@alice:example.org", [("DEVICE1", devK1)])] pass1Store "@bob:example.org" (by decide)⟩

/-- C2: evaluation of the model at the failing input.  When the batch
fetch throws, no store write happens (the store is exactly what it was
before the call) — that part of the claim holds — but the failure is
not propagated: the async promise executor swallows the exception, so
the shared handle stays pending forever instead of being rejected, and
the method's own promise also never settles, so waiters are never
notified of the failure. -/
theorem c2_fetch_failure_not_propagated :
    (updateUsersDeviceLists vTrue regEmpty ["@alice:example.org"]
        (Except.error "transport error") pass1Store).store = pass1Store
    ∧ (updateUsersDeviceLists vTrue regEmpty ["@alice:example.org"]
        (Except.error "transport error") pass1Store).outcome = PassOutcome.pending
    ∧ (updateUsersDeviceLists vTrue regEmpty ["@alice:example.org"]
        (Except.error "transport error") pass1Store).handle = some PassOutcome.pending
    ∧ (updateUsersDeviceLists vTrue regEmpty ["@alice:example.org"]
        (Except.error "transport error") pass1Store).trace
      = [Ev.waitPrior, Ev.fetchIssue, Ev.register] :=
  ⟨rfl, by decide, by decide, by decide⟩

/-- C4: evaluation of the model at the failing input.  A pass whose
fetch failed leaves a never-settling handle in the registry (first
conjunct); a later call for the same user then blocks forever inside the
deduplication wait: its trace stops at the wait, it never issues its own
fetch, never registers a handle, and never settles (middle conjuncts).
After a successful prior pass, by contrast, the next call does proceed
to fetch, register and commit (last conjuncts). -/
theorem c4_wait_blocks_after_failed_pass :
    (updateUsersDeviceLists vTrue regEmpty ["@alice:example.org"]
        (Except.error "transport error") store0).regAfter "@alice:example.org"
      = some PassOutcome.pending
    ∧ (updateUsersDeviceLists vTrue
        (updateUsersDeviceLists vTrue regEmpty ["@alice:example.org"]
          (Except.error "transport error") store0).regAfter
        ["@alice:example.org"]
        (Except.ok [("@alice:example.org", [("DEVICE1", devK1)])]) store0).trace
      = [Ev.waitPrior]
    ∧ (updateUsersDeviceLists vTrue
        (updateUsersDeviceLists vTrue regEmpty ["@alice:example.org"]
          (Except.error "transport error") store0).regAfter
        ["@alice:example.org"]
        (Except.ok [("@alice:example.org", [("DEVICE1", devK1)])]) store0).outcome
      = PassOutcome.pending
    ∧ (updateUsersDeviceLists vTrue
        (updateUsersDeviceLists vTrue regEmpty ["@alice:example.org"]
          (Except.error "transport error") store0).regAfter
        ["@alice:example.org"]
        (Except.ok [("@alice:example.org", [("DEVICE1", devK1)])]) store0).handle
      = none
    ∧ (updateUsersDeviceLists vTrue
        (updateUsersDeviceLists vTrue regEmpty ["@alice:example.org"] (Except.ok []) store0).regAfter
        ["@alice:example.org"]
        (Except.ok [("@alice:example.org", [("DEVICE1", devK1)])]) store0).trace
      = [Ev.waitPrior, Ev.fetchIssue, Ev.register, Ev.commit "@alice:example.org",
         Ev.resolveHandle]
    ∧ (updateUsersDeviceLists vTrue
        (updateUsersDeviceLists vTrue regEmpty ["@alice:example.org"] (Except.ok []) store0).regAfter
        ["@alice:example.org"]
        (Except.ok [("@alice:example.org", [("DEVICE1", devK1)])]) store0).outcome
      = PassOutcome.resolved := by
  decide

/-- C5 counterexample.  At a concrete successful call, the event trace
contains both the fetch issuance and the registry write, and the fetch
issuance comes strictly first: the shared handle is not installed before
the batch fetch is issued, contradicting the claimed ordering. -/
theorem c5_counterexample :
    Ev.fetchIssue ∈ (updateUsersDeviceLists vTrue regEmpty ["@alice:example.org"]
        (Except.ok [("@alice:example.org", [("DEVICE1", devK1)])]) store0).trace
    ∧ Ev.register ∈ (updateUsersDeviceLists vTrue regEmpty ["@alice:example.org"]
        (Except.ok [("@alice:example.org", [("DEVICE1", devK1)])]) store0).trace
    ∧ (updateUsersDeviceLists vTrue regEmpty ["@alice:example.org"]
        (Except.ok [("@alice:example.org", [("DEVICE1", devK1)])]) store0).trace.indexOf
          Ev.fetchIssue
      < (updateUsersDeviceLists vTrue regEmpty ["@alice:example.org"]
        (Except.ok [("@alice:example.org", [("DEVICE1", devK1)])]) store0).trace.indexOf
          Ev.register := by
  decide

/-- C5 (amended): registration happens immediately after the fetch is
issued, in the same synchronous segment following the deduplication
wait.  Whenever the wait completes, the trace starts exactly
`waitPrior, fetchIssue, register` and neither of the latter two recurs,
so the registry write precedes every commit, the handle resolution, and
any later suspension point; and every requested id is mapped to this
pass's shared handle, so any caller arriving after this segment waits on
this pass. -/
theorem c5_registration_in_fetch_segment
    (verify : UserDevice → String → String → Bool)
    (reg : String → Option PassOutcome) (userIds : List String)
    (fetchResult : Except String (List (String × List (String × UserDevice))))
    (store : String → List UserDevice)
    (h : promiseAllOutcome (userIds.filterMap reg) = PassOutcome.resolved) :
    ∃ rest : List Ev,
      (updateUsersDeviceLists verify reg userIds fetchResult store).trace
        = Ev.waitPrior :: Ev.fetchIssue :: Ev.register :: rest
      ∧ Ev.fetchIssue ∉ rest ∧ Ev.register ∉ rest
      ∧ ∀ u, userIds.contains u = true →
          (updateUsersDeviceLists verify reg userIds fetchResult store).regAfter u
            = (updateUsersDeviceLists verify reg userIds fetchResult store).handle := by
  cases fetchResult with
  | error e =>
    refine ⟨[], ?_, by simp, by simp, ?_⟩
    · simp [updateUsersDeviceLists, h]
    · intro u hu
      have hmem : u ∈ userIds := by simpa using hu
      simp [updateUsersDeviceLists, h, hmem]
  | ok resp =>
    refine ⟨resp.map (fun entry => Ev.commit entry.1) ++ [Ev.resolveHandle], ?_, ?_, ?_, ?_⟩
    · simp [updateUsersDeviceLists, h]
    · simp
    · simp
    · intro u hu
      have hmem : u ∈ userIds := by simpa using hu
      simp [updateUsersDeviceLists, h, hmem]

/-- C5 witness: the amended registration theorem applied to a concrete
call on the empty registry with a one-user response. -/
theorem c5_witness :
    promiseAllOutcome (["@alice:example.org"].filterMap regEmpty) = PassOutcome.resolved
    ∧ ∃ rest : List Ev,
      (updateUsersDeviceLists vTrue regEmpty ["@alice:example.org"]
          (Except.ok [("@alice:example.org", [("DEVICE1", devK1)])]) store0).trace
        = Ev.waitPrior :: Ev.fetchIssue :: Ev.register :: rest
      ∧ Ev.fetchIssue ∉ rest ∧ Ev.register ∉ rest
      ∧ ∀ u, (["@alice:example.org"].contains u) = true →
          (updateUsersDeviceLists vTrue regEmpty ["@alice:example.org"]
              (Except.ok [("@alice:example.org", [("DEVICE1", devK1)])]) store0).regAfter u
            = (updateUsersDeviceLists vTrue regEmpty ["@alice:example.org"]
              (Except.ok [("@alice:example.org", [("DEVICE1", devK1)])]) store0).handle :=
  ⟨by decide,
    c5_registration_in_fetch_segment vTrue regEmpty ["@alice:example.org"]
      (Except.ok [("@alice:example.org", [("DEVICE1", devK1)])]) store0 (by decide)⟩

/-- C9: the flag contract.  With the outdated-flag store write
succeeding, the call records the flags, and in its event trace the
awaited flag write is the first event while the call's own return is the
last — the write completes before the call returns; a synchronization
pass is started exactly when
`resync` is true, and it is this call's `updateUsersDeviceLists`; and
the call itself resolves for every fetch result — in particular when the
started pass's fetch fails, no failure reaches the caller. -/
theorem c9_flag_contract
    (verify : UserDevice → String → String → Bool)
    (reg : String → Option PassOutcome) (userIds : List String) (resync : Bool)
    (fetchResult : Except String (List (String × List (String × UserDevice))))
    (store : String → List UserDevice) :
    (flagUsersOutdated verify reg userIds resync (Except.ok ()) fetchResult store).flagged
      = userIds
    ∧ (flagUsersOutdated verify reg userIds resync (Except.ok ()) fetchResult store).trace.head?
      = some FlagEv.markOutdated
    ∧ (flagUsersOutdated verify reg userIds resync (Except.ok ()) fetchResult store).trace.getLast?
      = some FlagEv.ret
    ∧ (flagUsersOutdated verify reg userIds resync (Except.ok ()) fetchResult store).started
      = resync
    ∧ (resync = true →
        (flagUsersOutdated verify reg userIds resync (Except.ok ()) fetchResult store).startedPass
          = some (updateUsersDeviceLists verify reg userIds fetchResult store))
    ∧ (flagUsersOutdated verify reg userIds resync (Except.ok ()) fetchResult store).outcome
      = PassOutcome.resolved := by
  cases resync with
  | true => exact ⟨rfl, rfl, rfl, rfl, fun _ => rfl, rfl⟩
  | false => exact ⟨rfl, rfl, rfl, rfl, fun hc => Bool.noConfusion hc, rfl⟩

/-- C9 witness: the flag contract applied with `resync = true` and a
fetch that fails — the caller still sees a resolved call and the flags
written. -/
theorem c9_witness :
    (flagUsersOutdated vTrue regEmpty ["@alice:example.org"] true (Except.ok ())
        (Except.error "transport error") store0).flagged = ["@alice:example.org"]
    ∧ (flagUsersOutdated vTrue regEmpty ["@alice:example.org"] true (Except.ok ())
        (Except.error "transport error") store0).outcome = PassOutcome.resolved :=
  ⟨(c9_flag_contract vTrue regEmpty ["@alice:example.org"] true
      (Except.error "transport error") store0).1,
   (c9_flag_contract vTrue regEmpty ["@alice:example.org"] true
      (Except.error "transport error") store0).2.2.2.2.2⟩

/-- C8 witness: trust-on-first-use applied to `devK2` against the empty
stored list, with the always-accepting verifier — included although its
key differs from what a pinned sibling would have carried. -/
theorem c8_witness :
    validateDevice vTrue [] "@alice:example.org" "DEVICE1" devK2 = true
    ∧ devK2 ∈ validatedFor vTrue [] "@alice:example.org" [("DEVICE1", devK2)] := by
  have h := c8_trust_on_first_use vTrue [] "@alice:example.org" "DEVICE1" devK2
    "keyK2" "curveC1" "sig2" (by decide) (by decide) (by decide) (by decide)
    (by decide) (by decide) (by decide) (by decide) (by decide) (by decide)
  exact ⟨h.1, h.2 [("DEVICE1", devK2)] (by decide)⟩
